import Mathlib

/-!
Verification of the `teammy-api` plugin runtime contract.

The development shallowly embeds the three source modules:

* `teammy/api/data.py` — the metadata records (`MeetingMetadata`,
  `ExecutionMetadata`, `DataPacket`);
* `teammy/api/engine.py` — the capability facade (`LLMProvider`,
  `PersistenceProvider`, `MeetingEngine`);
* `teammy/api/plugin.py` — the plugin surface (`InCallPluginMetadata`
  and the lifecycle callbacks of `InCallPlugin`).

Python dictionaries are embedded as functions into `Option`, Python
`None` is the `PyObj.none` value of the dynamic value domain, fallible
code returns `Except`, and the implicit mutable state of each class
(the store dictionary, the lazily created model client, the singleton
slot of the engine class) is passed explicitly.
-/

/-- Dynamic Python values as they flow through the persistence store:
either `None` or some object identified by its id. -/
inductive PyObj where
  | none
  | obj (id : Nat)
deriving DecidableEq

/-- `MeetingMetadata` from `teammy/api/data.py`: meeting id and plugin name. -/
structure MeetingMetadata where
  meeting_id : String
  plugin_name : String
deriving DecidableEq

/-- `ExecutionMetadata` from `teammy/api/data.py`: meeting id and source plugin name. -/
structure ExecutionMetadata where
  meeting_id : String
  source_name : String
deriving DecidableEq

/-- `DataPacket` from `teammy/api/data.py`: optional timestamp and optional
execution metadata (timestamps embedded as integers). -/
structure DataPacket where
  timestamp : Option Int
  execution_metadata : Option ExecutionMetadata
deriving DecidableEq

/-- The `PersistenceProvider._store` dictionary: a map from string keys to
stored Python objects; `Option.none` means the key is absent from the dict. -/
def Store := String → Option PyObj

/-- The store before any `set` was performed: an empty dictionary. -/
def emptyStore : Store := fun _ => Option.none

/-- The composite key built by `PersistenceProvider.set` and
`PersistenceProvider.get`: the Python f-string
`f"<plugin_name>+<meeting_id>+<key>"`. -/
def compositeKey (info : MeetingMetadata) (key : String) : String :=
  info.plugin_name ++ "+" ++ info.meeting_id ++ "+" ++ key

/-- `PersistenceProvider.set`: stores `data` in `_store` under the composite
key (Python dict item assignment). -/
def PersistenceProvider.set (s : Store) (info : MeetingMetadata) (key : String)
    (data : PyObj) : Store :=
  fun k => if k = compositeKey info key then some data else s k

/-- `PersistenceProvider.get`: `self._store.get(compositeKey)`, Python's
dict `.get` returning `None` when the key is absent. -/
def PersistenceProvider.get (s : Store) (info : MeetingMetadata) (key : String) :
    PyObj :=
  (s (compositeKey info key)).getD PyObj.none

/-- `PersistenceProvider.get_stream_history`: the body in the source is the
single statement `pass` (with a FIXME comment), so the call returns Python
`None` — embedded as `Option.none` of the annotated `list[DataPacket]`
return type. -/
def PersistenceProvider.get_stream_history (_info : MeetingMetadata)
    (_num_packets : Int) (_not_before : Option Int) : Option (List DataPacket) :=
  Option.none

/-- One recorded `set` call: its metadata argument, key, and data. -/
structure SetOp where
  info : MeetingMetadata
  key : String
  data : PyObj
deriving DecidableEq

/-- Apply a sequence of `set` calls to a store, in call order. -/
def applyOps (ops : List SetOp) (s : Store) : Store :=
  ops.foldl (fun st op => PersistenceProvider.set st op.info op.key op.data) s

/-! ## Plugin lifecycle -/

/-- The lifecycle states of a plugin type. -/
inductive LifecycleState where
  | uninstalled
  | installed
  | started
  | meetingActive
  | meetingInactive
  | stopped
deriving DecidableEq

/-- The error signalled on an invalid lifecycle transition. -/
inductive LifecycleError where
  | invalidTransition
deriving DecidableEq

/-- Modelled from the spec: `src/teammy/api/plugin.py` declares the lifecycle
callbacks (`on_startup`, `on_meeting_start`, ...) only as abstract methods
with empty bodies — the state machine that enforces their ordering lives in
the hosting core outside this repository. Following section 4.1 of the spec,
`startup(config)` maps `Installed` or `Started` to `Started` (idempotent,
re-entrant), and every other source state is an invalid transition signalling
a `LifecycleError`. -/
def PluginLifecycle.startup : LifecycleState → Except LifecycleError LifecycleState
  | LifecycleState.installed => Except.ok LifecycleState.started
  | LifecycleState.started => Except.ok LifecycleState.started
  | _ => Except.error LifecycleError.invalidTransition

/-- Modelled from the spec: the `meeting_start(context)` transition of the
lifecycle state machine of section 4.1, absent from `src/` (see
`PluginLifecycle.startup`). It maps `Started` or `MeetingInactive` to
`MeetingActive`; every other source state is an invalid transition
signalling a `LifecycleError`, never silently ignored. -/
def PluginLifecycle.meeting_start : LifecycleState → Except LifecycleError LifecycleState
  | LifecycleState.started => Except.ok LifecycleState.meetingActive
  | LifecycleState.meetingInactive => Except.ok LifecycleState.meetingActive
  | _ => Except.error LifecycleError.invalidTransition

/-! ## The model facade (`LLMProvider`) -/

/-- A chat message dictionary (`dict` in the Python signature): an
association list of string fields. -/
abbrev ChatMessageDict := List (String × String)

/-- The keyword arguments of `client.chat.completions.create(...)` exactly as
both prompt variants build them: the messages list, the sampling temperature
(embedded as a rational) and the model identifier string. -/
structure ChatRequest where
  messages : List ChatMessageDict
  temperature : Rat
  model : String
deriving DecidableEq

/-- The `message` member of a response choice; `content` is the generated text. -/
structure ResponseMessage where
  content : String
deriving DecidableEq

/-- One element of `res.choices`. -/
structure ResponseChoice where
  message : ResponseMessage
deriving DecidableEq

/-- The response object returned by `client.chat.completions.create`. -/
structure ChatResponse where
  choices : List ResponseChoice
deriving DecidableEq

/-- Failure of the external model transport or of authentication, surfaced
by the openai client as an exception. -/
inductive ProviderError where
  | transportFailure
  | authFailure
deriving DecidableEq

/-- A Python exception escaping a prompt call: a provider (transport/auth)
error, the `IndexError` of `res.choices[0]` on an empty choice list, or the
`AttributeError` of calling a method on a `None` client. -/
inductive PyError where
  | provider (e : ProviderError)
  | indexError
  | attributeError
deriving DecidableEq

/-- The mutable state of an `LLMProvider`: its `client` attribute, `None`
until `_init_client` runs. `Client` is the opaque type of
`openai.AsyncOpenAI` instances. -/
structure LLMProvider (Client : Type) where
  client : Option Client
deriving DecidableEq

/-- The behaviour of `client.chat.completions.create`: an external
collaborator mapping a client and a request to a response or a provider
error. -/
abbrev CreateFn (Client : Type) := Client → ChatRequest → Except ProviderError ChatResponse

/-- The class-attribute initial state: `client: openai.AsyncOpenAI | None = None`. -/
def LLMProvider.initial (Client : Type) : LLMProvider Client :=
  ⟨Option.none⟩

/-- `LLMProvider._init_client`: `if self.client is None: self.client =
openai.AsyncOpenAI()`. `newClient` is the instance the constructor call
would produce. -/
def LLMProvider.init_client {Client : Type} (newClient : Client)
    (s : LLMProvider Client) : LLMProvider Client :=
  match s.client with
  | Option.none => ⟨some newClient⟩
  | some _ => s

/-- `LLMProvider.fast_prompt`: awaits `_init_client`, then awaits
`client.chat.completions.create` with `model="gpt-4o-mini"`, and returns
`res.choices[0].message.content`. The result pairs the returned value (or
escaping exception) with the provider state after the call. -/
def LLMProvider.fast_prompt {Client : Type} (newClient : Client)
    (create : CreateFn Client) (s : LLMProvider Client)
    (messages : List ChatMessageDict) (temperature : Rat) :
    Except PyError String × LLMProvider Client :=
  let s1 := LLMProvider.init_client newClient s
  match s1.client with
  | Option.none => (Except.error PyError.attributeError, s1)
  | some c =>
    match create c ⟨messages, temperature, "gpt-4o-mini"⟩ with
    | Except.error e => (Except.error (PyError.provider e), s1)
    | Except.ok res =>
      match res.choices.head? with
      | Option.none => (Except.error PyError.indexError, s1)
      | some ch => (Except.ok ch.message.content, s1)

/-- `LLMProvider.prompt`: identical to `fast_prompt` except that the request
names `model="gpt-4o"`. -/
def LLMProvider.prompt {Client : Type} (newClient : Client)
    (create : CreateFn Client) (s : LLMProvider Client)
    (messages : List ChatMessageDict) (temperature : Rat) :
    Except PyError String × LLMProvider Client :=
  let s1 := LLMProvider.init_client newClient s
  match s1.client with
  | Option.none => (Except.error PyError.attributeError, s1)
  | some c =>
    match create c ⟨messages, temperature, "gpt-4o"⟩ with
    | Except.error e => (Except.error (PyError.provider e), s1)
    | Except.ok res =>
      match res.choices.head? with
      | Option.none => (Except.error PyError.indexError, s1)
      | some ch => (Except.ok ch.message.content, s1)

/-- Spec-side generic prompt, following the spec's words that the fast and
full variants differ only in underlying model selection: the shared body of
both variants with the model identifier abstracted. -/
def LLMProvider.promptWithModel {Client : Type} (model : String)
    (newClient : Client) (create : CreateFn Client) (s : LLMProvider Client)
    (messages : List ChatMessageDict) (temperature : Rat) :
    Except PyError String × LLMProvider Client :=
  let s1 := LLMProvider.init_client newClient s
  match s1.client with
  | Option.none => (Except.error PyError.attributeError, s1)
  | some c =>
    match create c ⟨messages, temperature, model⟩ with
    | Except.error e => (Except.error (PyError.provider e), s1)
    | Except.ok res =>
      match res.choices.head? with
      | Option.none => (Except.error PyError.indexError, s1)
      | some ch => (Except.ok ch.message.content, s1)

/-- One facade model call: either the fast or the full prompt variant with
its arguments. -/
inductive LLMCall where
  | fast (messages : List ChatMessageDict) (temperature : Rat)
  | full (messages : List ChatMessageDict) (temperature : Rat)
deriving DecidableEq

/-- The provider state after one prompt call. -/
def LLMProvider.runCall {Client : Type} (newClient : Client)
    (create : CreateFn Client) (s : LLMProvider Client) :
    LLMCall → LLMProvider Client
  | LLMCall.fast ms t => (LLMProvider.fast_prompt newClient create s ms t).2
  | LLMCall.full ms t => (LLMProvider.prompt newClient create s ms t).2

/-- The provider state after a sequence of prompt calls, in call order. -/
def LLMProvider.runCalls {Client : Type} (newClient : Client)
    (create : CreateFn Client) (s : LLMProvider Client)
    (calls : List LLMCall) : LLMProvider Client :=
  calls.foldl (LLMProvider.runCall newClient create) s

/-! ## The engine singleton (`MeetingEngine`) -/

/-- The class-level state of `MeetingEngine`: an allocation counter giving
fresh object identities to `super().__new__(cls)`, and the `_instance`
class attribute (`None` initially). -/
structure MeetingEngineClass where
  nextId : Nat
  inst : Option Nat
deriving DecidableEq

/-- The class state before any construction: `_instance: MeetingEngine = None`. -/
def MeetingEngineClass.initial : MeetingEngineClass :=
  ⟨0, Option.none⟩

/-- `MeetingEngine.__new__`: if `cls._instance is None` it allocates a fresh
object and stores it in `cls._instance`; it returns `cls._instance`. -/
def MeetingEngine.new : MeetingEngineClass → Nat × MeetingEngineClass
  | ⟨n, Option.none⟩ => (n, ⟨n + 1, some n⟩)
  | ⟨n, some i⟩ => (i, ⟨n, some i⟩)

/-- The object identity of the class attribute `_llm = LLMProvider()`,
created once when the class body is evaluated. -/
def MeetingEngine.classLLM : Nat := 0

/-- The object identity of the class attribute
`_datastore = PersistenceProvider()`, created once when the class body is
evaluated. -/
def MeetingEngine.classDatastore : Nat := 1

/-- `MeetingEngine.llm`: `return self._llm` — attribute lookup resolves to
the class attribute, the same object for every instance and every call. -/
def MeetingEngine.llm (_self : Nat) : Nat :=
  MeetingEngine.classLLM

/-- `MeetingEngine.datastore`: `return self._datastore` — attribute lookup
resolves to the class attribute, the same object for every instance and
every call. -/
def MeetingEngine.datastore (_self : Nat) : Nat :=
  MeetingEngine.classDatastore

/-! ## Plugin metadata (`InCallPluginMetadata`) -/

/-- `PluginConfig` from `teammy/api/plugin.py`: an opaque configuration
payload (the ABC has no members; concrete shapes are plugin specific). -/
structure PluginConfig where
  tag : Nat
deriving DecidableEq

/-- `InCallPluginMetadata` from `teammy/api/plugin.py`: the
`@dataclass(frozen=True)` record of plugin name, version, data sources and
config. -/
structure InCallPluginMetadata where
  name : String
  version : String
  sources : List String
  config : PluginConfig
deriving DecidableEq

/-- The `frozen=True` flag of the `@dataclass` decorator on
`InCallPluginMetadata`. -/
def InCallPluginMetadata.frozen : Bool := true

/-- A field assignment attempted on an `InCallPluginMetadata` instance:
one of its four fields together with the value to assign. -/
inductive MetadataAssign where
  | name (s : String)
  | version (s : String)
  | sources (l : List String)
  | config (c : PluginConfig)
deriving DecidableEq

/-- The error a frozen dataclass raises on attribute assignment
(`dataclasses.FrozenInstanceError`). -/
inductive DataclassError where
  | frozenInstanceError
deriving DecidableEq

/-- The record update an assignment would perform if it were allowed. -/
def InCallPluginMetadata.applyAssign (md : InCallPluginMetadata) :
    MetadataAssign → InCallPluginMetadata
  | MetadataAssign.name s => ⟨s, md.version, md.sources, md.config⟩
  | MetadataAssign.version s => ⟨md.name, s, md.sources, md.config⟩
  | MetadataAssign.sources l => ⟨md.name, md.version, l, md.config⟩
  | MetadataAssign.config c => ⟨md.name, md.version, md.sources, c⟩

/-- Attribute assignment on an `InCallPluginMetadata` instance: the
`__setattr__` generated by `@dataclass(frozen=True)` raises
`FrozenInstanceError` whenever the frozen flag is set, and performs the
update otherwise. -/
def InCallPluginMetadata.setattr (md : InCallPluginMetadata)
    (a : MetadataAssign) : Except DataclassError InCallPluginMetadata :=
  if InCallPluginMetadata.frozen then Except.error DataclassError.frozenInstanceError
  else Except.ok (InCallPluginMetadata.applyAssign md a)

/-! ## Theorems: the persistence store -/

/-- With the meeting id and key fixed, the composite key determines the
plugin name: the shared suffix of the f-string cancels on the right, even
when the names contain the delimiter character. -/
theorem compositeKey_plugin_inj (p1 p2 m k : String)
    (h : compositeKey ⟨m, p1⟩ k = compositeKey ⟨m, p2⟩ k) : p1 = p2 := by
  unfold compositeKey at h
  have hd := congrArg String.data h
  simp only [String.data_append] at hd
  have hd2 : p1.data ++ ('+' :: (m.data ++ '+' :: k.data))
      = p2.data ++ ('+' :: (m.data ++ '+' :: k.data)) := by
    simpa [List.append_assoc] using hd
  exact String.ext (List.append_cancel_right hd2)

/-- C1: namespace isolation — for every store state, meeting id `m`, key `k`
and distinct plugin names `p1 ≠ p2` (delimiter characters allowed), a `set`
under `(p1, m, k)` never changes the result of a subsequent `get` under
`(p2, m, k)`. -/
theorem set_get_namespace_isolated (s : Store) (p1 p2 m k : String) (v : PyObj)
    (h : p1 ≠ p2) :
    PersistenceProvider.get (PersistenceProvider.set s ⟨m, p1⟩ k v) ⟨m, p2⟩ k
      = PersistenceProvider.get s ⟨m, p2⟩ k := by
  have hne : compositeKey ⟨m, p2⟩ k ≠ compositeKey ⟨m, p1⟩ k := by
    intro he
    exact h ((compositeKey_plugin_inj p2 p1 m k he).symm)
  unfold PersistenceProvider.get PersistenceProvider.set
  simp [hne]

/-- Witness for C1 at plugin names that contain the delimiter. -/
theorem set_get_namespace_isolated_witness :
    ("a+x" : String) ≠ "a"
    ∧ PersistenceProvider.get
        (PersistenceProvider.set emptyStore ⟨"b", "a+x"⟩ "d" (PyObj.obj 1))
        ⟨"b", "a"⟩ "d"
      = PersistenceProvider.get emptyStore ⟨"b", "a"⟩ "d" :=
  ⟨by decide,
    set_get_namespace_isolated emptyStore "a+x" "a" "b" "d" (PyObj.obj 1) (by decide)⟩

/-- C2: `get_stream_history` is unimplemented (`pass` body under a FIXME):
for every metadata, packet count and time filter it returns Python `None`
rather than the list of at most `num_packets` timestamp-ordered entries its
docstring promises. -/
theorem get_stream_history_returns_none (info : MeetingMetadata)
    (num_packets : Int) (not_before : Option Int) :
    PersistenceProvider.get_stream_history info num_packets not_before
      = Option.none :=
  rfl

/-- C3: round-trip with overwrite — for every prior store state, metadata and
key, `set` followed by `get` on the same composite key returns exactly the
value just written. -/
theorem set_then_get_returns_value (s : Store) (info : MeetingMetadata)
    (key : String) (v : PyObj) :
    PersistenceProvider.get (PersistenceProvider.set s info key v) info key = v := by
  unfold PersistenceProvider.get PersistenceProvider.set
  simp

/-- C4 counterexample: the claim quantifies over contexts and keys on which
no `set` was ever performed, but the `+`-delimited f-string key is not
injective across contexts: the single recorded `set` uses plugin `a+b`,
meeting `c`, key `d`, which collides with plugin `a`, meeting `b+c`, key
`d`, so the `get` on the never-set context returns the stored object, not
the absent result. -/
theorem unset_key_absent_counterexample :
    (∀ op ∈ [SetOp.mk ⟨"c", "a+b"⟩ "d" (PyObj.obj 0)],
        ¬(op.info = (⟨"b+c", "a"⟩ : MeetingMetadata) ∧ op.key = "d"))
    ∧ PersistenceProvider.get
        (applyOps [SetOp.mk ⟨"c", "a+b"⟩ "d" (PyObj.obj 0)] emptyStore)
        ⟨"b+c", "a"⟩ "d" ≠ PyObj.none := by
  constructor
  · decide
  · decide

/-- A sequence of `set` calls none of which writes the composite key `ck`
leaves the dictionary entry at `ck` unchanged. -/
theorem applyOps_lookup_of_ne (ops : List SetOp) (ck : String)
    (h : ∀ op ∈ ops, compositeKey op.info op.key ≠ ck) (s : Store) :
    applyOps ops s ck = s ck := by
  induction ops generalizing s with
  | nil => rfl
  | cons op rest ih =>
    have h1 : compositeKey op.info op.key ≠ ck := h op (List.mem_cons_self _ _)
    have h2 : ∀ o ∈ rest, compositeKey o.info o.key ≠ ck :=
      fun o ho => h o (List.mem_cons_of_mem _ ho)
    show applyOps rest (PersistenceProvider.set s op.info op.key op.data) ck = s ck
    rw [ih h2]
    show (if ck = compositeKey op.info op.key then some op.data else s ck) = s ck
    exact if_neg (fun he => h1 he.symm)

/-- C4 (amended): for every context and key whose composite key string
`plugin_name+meeting_id+key` is written by none of the performed `set`
calls, `get` returns the absent result (`None`) and raises nothing. -/
theorem unset_composite_key_get_absent (ops : List SetOp)
    (info : MeetingMetadata) (key : String)
    (h : ∀ op ∈ ops, compositeKey op.info op.key ≠ compositeKey info key) :
    PersistenceProvider.get (applyOps ops emptyStore) info key = PyObj.none := by
  unfold PersistenceProvider.get
  rw [applyOps_lookup_of_ne ops (compositeKey info key) h emptyStore]
  rfl

/-- Witness for the amended C4: one non-colliding `set`, then a `get` on a
different plugin name in the same meeting. -/
theorem unset_composite_key_get_absent_witness :
    (∀ op ∈ [SetOp.mk ⟨"m1", "p1"⟩ "k1" (PyObj.obj 2)],
        compositeKey op.info op.key ≠ compositeKey ⟨"m1", "p2"⟩ "k1")
    ∧ PersistenceProvider.get
        (applyOps [SetOp.mk ⟨"m1", "p1"⟩ "k1" (PyObj.obj 2)] emptyStore)
        ⟨"m1", "p2"⟩ "k1" = PyObj.none :=
  ⟨by decide,
    unset_composite_key_get_absent [SetOp.mk ⟨"m1", "p1"⟩ "k1" (PyObj.obj 2)]
      ⟨"m1", "p2"⟩ "k1" (by decide)⟩

/-- C10: storing `None` is indistinguishable from never storing — after
`set(c, k, None)`, `get(c, k)` returns `None`, exactly what `get` returns on
the empty store for any context and key. -/
theorem stored_none_indistinguishable_from_unset (s : Store)
    (info info2 : MeetingMetadata) (key key2 : String) :
    PersistenceProvider.get (PersistenceProvider.set s info key PyObj.none) info key
        = PyObj.none
    ∧ PersistenceProvider.get emptyStore info2 key2 = PyObj.none := by
  constructor
  · unfold PersistenceProvider.get PersistenceProvider.set
    simp
  · rfl

/-! ## Theorems: plugin lifecycle -/

/-- C5: lifecycle ordering — `meeting_start` on a plugin that has not yet
completed `startup` (state `Uninstalled` or `Installed`) signals a
`LifecycleError` rather than being silently ignored, while whenever a
`startup` succeeds, a second `startup` from the reached state succeeds as
well. -/
theorem lifecycle_meeting_start_before_startup (s t u : LifecycleState)
    (h1 : s = LifecycleState.uninstalled ∨ s = LifecycleState.installed)
    (h2 : PluginLifecycle.startup t = Except.ok u) :
    PluginLifecycle.meeting_start s = Except.error LifecycleError.invalidTransition
    ∧ PluginLifecycle.startup u = Except.ok LifecycleState.started := by
  constructor
  · rcases h1 with h | h <;> rw [h] <;> rfl
  · cases t <;> simp [PluginLifecycle.startup] at h2 <;> rw [← h2] <;> rfl

/-- Witness for C5: from `Installed`, `meeting_start` errors while two
consecutive `startup` calls both succeed. -/
theorem lifecycle_meeting_start_before_startup_witness :
    ((LifecycleState.installed = LifecycleState.uninstalled
        ∨ LifecycleState.installed = LifecycleState.installed)
      ∧ PluginLifecycle.startup LifecycleState.installed
          = Except.ok LifecycleState.started)
    ∧ PluginLifecycle.meeting_start LifecycleState.installed
        = Except.error LifecycleError.invalidTransition
    ∧ PluginLifecycle.startup LifecycleState.started
        = Except.ok LifecycleState.started :=
  ⟨⟨Or.inr rfl, rfl⟩,
    lifecycle_meeting_start_before_startup LifecycleState.installed
      LifecycleState.installed LifecycleState.started (Or.inr rfl) rfl⟩

/-! ## Theorems: the model facade -/

/-- The state returned by the generic prompt is exactly the state left by
`_init_client`, in every branch. -/
theorem promptWithModel_state {Client : Type} (model : String)
    (newClient : Client) (create : CreateFn Client) (s : LLMProvider Client)
    (messages : List ChatMessageDict) (temperature : Rat) :
    (LLMProvider.promptWithModel model newClient create s messages temperature).2
      = LLMProvider.init_client newClient s := by
  simp only [LLMProvider.promptWithModel]
  split
  · rfl
  · split
    · rfl
    · split <;> rfl

/-- The generic prompt surfaces a `ProviderError` exactly when the create
call on the initialized client fails. -/
theorem promptWithModel_provider_error_iff {Client : Type} (model : String)
    (newClient : Client) (create : CreateFn Client) (s : LLMProvider Client)
    (messages : List ChatMessageDict) (temperature : Rat) (c : Client)
    (e : ProviderError)
    (hc : (LLMProvider.init_client newClient s).client = some c) :
    ((LLMProvider.promptWithModel model newClient create s messages temperature).1
        = Except.error (PyError.provider e))
      ↔ create c ⟨messages, temperature, model⟩ = Except.error e := by
  rcases hcr : create c ⟨messages, temperature, model⟩ with e2 | res
  · simp [LLMProvider.promptWithModel, hc, hcr]
  · rcases hh : res.choices.head? with _ | ch
    · simp [LLMProvider.promptWithModel, hc, hcr, hh]
    · simp [LLMProvider.promptWithModel, hc, hcr, hh]

/-- C6: the fast and full prompt variants are the same function up to the
model identifier — each equals the generic prompt instantiated at its model
string, both leave the client state identically initialized, and each fails
with a `ProviderError` exactly when the underlying create call (transport or
authentication) fails. -/
theorem fast_prompt_prompt_differ_only_in_model (Client : Type)
    (newClient : Client) (create : CreateFn Client) (s : LLMProvider Client)
    (messages : List ChatMessageDict) (temperature : Rat) (c : Client)
    (hc : (LLMProvider.init_client newClient s).client = some c) :
    LLMProvider.fast_prompt newClient create s messages temperature
      = LLMProvider.promptWithModel "gpt-4o-mini" newClient create s messages temperature
    ∧ LLMProvider.prompt newClient create s messages temperature
      = LLMProvider.promptWithModel "gpt-4o" newClient create s messages temperature
    ∧ (LLMProvider.fast_prompt newClient create s messages temperature).2
      = (LLMProvider.prompt newClient create s messages temperature).2
    ∧ (∀ e : ProviderError,
        ((LLMProvider.fast_prompt newClient create s messages temperature).1
            = Except.error (PyError.provider e))
          ↔ create c ⟨messages, temperature, "gpt-4o-mini"⟩ = Except.error e)
    ∧ (∀ e : ProviderError,
        ((LLMProvider.prompt newClient create s messages temperature).1
            = Except.error (PyError.provider e))
          ↔ create c ⟨messages, temperature, "gpt-4o"⟩ = Except.error e) := by
  refine ⟨rfl, rfl, ?_, ?_, ?_⟩
  · exact (promptWithModel_state "gpt-4o-mini" newClient create s messages
        temperature).trans
      (promptWithModel_state "gpt-4o" newClient create s messages temperature).symm
  · exact fun e => promptWithModel_provider_error_iff "gpt-4o-mini" newClient
      create s messages temperature c e hc
  · exact fun e => promptWithModel_provider_error_iff "gpt-4o" newClient
      create s messages temperature c e hc

/-- Witness for C6 with a concrete client type and a failing transport. -/
theorem fast_prompt_prompt_differ_only_in_model_witness :
    (LLMProvider.init_client (0 : Nat) (LLMProvider.initial Nat)).client = some 0
    ∧ (LLMProvider.fast_prompt (0 : Nat)
          (fun _ _ => Except.error ProviderError.transportFailure)
          (LLMProvider.initial Nat) [] 1).2
      = (LLMProvider.prompt (0 : Nat)
          (fun _ _ => Except.error ProviderError.transportFailure)
          (LLMProvider.initial Nat) [] 1).2 :=
  ⟨rfl,
    (fast_prompt_prompt_differ_only_in_model Nat 0
        (fun _ _ => Except.error ProviderError.transportFailure)
        (LLMProvider.initial Nat) [] 1 0 rfl).2.2.1⟩

/-- `_init_client` on an uninitialized provider stores the fresh client. -/
theorem init_client_client_of_none {Client : Type} (newClient : Client)
    (s : LLMProvider Client) (h : s.client = Option.none) :
    (LLMProvider.init_client newClient s).client = some newClient := by
  simp [LLMProvider.init_client, h]

/-- `_init_client` on an already initialized provider leaves it unchanged. -/
theorem init_client_client_of_some {Client : Type} (newClient : Client)
    (s : LLMProvider Client) (c : Client) (h : s.client = some c) :
    (LLMProvider.init_client newClient s).client = some c := by
  simp [LLMProvider.init_client, h]

/-- After any single prompt call, the client attribute is whatever
`_init_client` left there. -/
theorem runCall_client {Client : Type} (newClient : Client)
    (create : CreateFn Client) (s : LLMProvider Client) (call : LLMCall) :
    (LLMProvider.runCall newClient create s call).client
      = (LLMProvider.init_client newClient s).client := by
  cases call with
  | fast ms t =>
    exact congrArg LLMProvider.client
      (promptWithModel_state "gpt-4o-mini" newClient create s ms t)
  | full ms t =>
    exact congrArg LLMProvider.client
      (promptWithModel_state "gpt-4o" newClient create s ms t)

/-- Once the client is present, any sequence of prompt calls leaves it
unchanged. -/
theorem runCalls_client_preserved {Client : Type} (newClient : Client)
    (create : CreateFn Client) (calls : List LLMCall) (s : LLMProvider Client)
    (c : Client) (h : s.client = some c) :
    (LLMProvider.runCalls newClient create s calls).client = some c := by
  induction calls generalizing s with
  | nil => exact h
  | cons call rest ih =>
    show (LLMProvider.runCalls newClient create
        (LLMProvider.runCall newClient create s call) rest).client = some c
    exact ih _ ((runCall_client newClient create s call).trans
      (init_client_client_of_some newClient s c h))

/-- C7: lazy at-most-once client initialization — the initial provider has
no client, every nonempty sequence of prompt calls starting there leaves the
client equal to the one constructed on the first call, and once the client
is present any further sequence of calls leaves it unchanged. -/
theorem llm_client_lazy_at_most_once (Client : Type) (newClient : Client)
    (create : CreateFn Client) (calls : List LLMCall) (s : LLMProvider Client)
    (c : Client) (hne : calls ≠ []) (hc : s.client = some c) :
    (LLMProvider.initial Client).client = Option.none
    ∧ (LLMProvider.runCalls newClient create (LLMProvider.initial Client)
        calls).client = some newClient
    ∧ (LLMProvider.runCalls newClient create s calls).client = some c := by
  refine ⟨rfl, ?_, runCalls_client_preserved newClient create calls s c hc⟩
  rcases calls with _ | ⟨call, rest⟩
  · exact absurd rfl hne
  · show (LLMProvider.runCalls newClient create
        (LLMProvider.runCall newClient create (LLMProvider.initial Client) call)
        rest).client = some newClient
    exact runCalls_client_preserved newClient create rest _ newClient
      ((runCall_client newClient create (LLMProvider.initial Client) call).trans
        (init_client_client_of_none newClient (LLMProvider.initial Client) rfl))

/-- Witness for C7: one fast call creates the client; a provider that
already has client `5` keeps it. -/
theorem llm_client_lazy_at_most_once_witness :
    ([LLMCall.fast [] 1] ≠ ([] : List LLMCall))
    ∧ ((⟨some 5⟩ : LLMProvider Nat).client = some 5)
    ∧ ((LLMProvider.initial Nat).client = Option.none
      ∧ (LLMProvider.runCalls 7
          (fun _ _ => Except.error ProviderError.transportFailure)
          (LLMProvider.initial Nat) [LLMCall.fast [] 1]).client = some 7
      ∧ (LLMProvider.runCalls 7
          (fun _ _ => Except.error ProviderError.transportFailure)
          (⟨some 5⟩ : LLMProvider Nat) [LLMCall.fast [] 1]).client = some 5) :=
  ⟨by decide, rfl,
    llm_client_lazy_at_most_once Nat 7
      (fun _ _ => Except.error ProviderError.transportFailure)
      [LLMCall.fast [] 1] ⟨some 5⟩ 5 (by decide) rfl⟩

/-! ## Theorems: engine singleton and plugin metadata -/

/-- C8: singleton facade — constructing the `MeetingEngine` a second time
returns the very object the first construction returned and leaves the
class state unchanged, and `llm()` and `datastore()` return the same
class-level provider objects for every instance and every call. -/
theorem meeting_engine_singleton (w : MeetingEngineClass) (a b : Nat) :
    (MeetingEngine.new (MeetingEngine.new w).2).1 = (MeetingEngine.new w).1
    ∧ (MeetingEngine.new (MeetingEngine.new w).2).2 = (MeetingEngine.new w).2
    ∧ MeetingEngine.llm a = MeetingEngine.llm b
    ∧ MeetingEngine.datastore a = MeetingEngine.datastore b := by
  obtain ⟨n, i⟩ := w
  rcases i with _ | i <;> exact ⟨rfl, rfl, rfl, rfl⟩

/-- C9: plugin metadata is write-once — every attribute assignment on an
`InCallPluginMetadata` raises `FrozenInstanceError`, and each field of a
constructed record equals the value supplied at construction. -/
theorem metadata_write_once (md : InCallPluginMetadata) (a : MetadataAssign)
    (n v : String) (srcs : List String) (cfg : PluginConfig) :
    InCallPluginMetadata.setattr md a
      = Except.error DataclassError.frozenInstanceError
    ∧ (InCallPluginMetadata.mk n v srcs cfg).name = n
    ∧ (InCallPluginMetadata.mk n v srcs cfg).version = v
    ∧ (InCallPluginMetadata.mk n v srcs cfg).sources = srcs
    ∧ (InCallPluginMetadata.mk n v srcs cfg).config = cfg :=
  ⟨rfl, rfl, rfl, rfl, rfl⟩
